import Mathlib

/-!
Shallow embedding of the two-state steam calculator
(`ThermoStateCalc_appHW.py`): the state resolver `thermoState.setState` /
`thermoState.computeProperties`, the per-state resolution pipeline of
`main_window.calculateProperties`, the unit-conversion helper
`main_window.setUnits.convertValue`, and the delta computation of
`main_window.makeDeltaLabel`.

Numeric values are embedded as rationals (ℚ).  The pyXSteam backend is an
external collaborator (the spec's "property oracle"); it is embedded as an
abstract record of total functions, and the `XSteam(...)` constructor the
source calls with `UNIT_SYSTEM_MKS if SI else UNIT_SYSTEM_FLS` is embedded
as a function from that boolean to an oracle record; theorems quantify
over it.
-/

namespace ThermoCalc

/-- The property oracle (a pyXSteam `XSteam` object): saturation
temperature, saturated-liquid/vapor values, and direct (p,t) lookups —
exactly the thirteen calls the source makes (`tsat_p`, `uL_p`, `uV_p`,
`hL_p`, `hV_p`, `sL_p`, `sV_p`, `vL_p`, `vV_p`, `u_pt`, `h_pt`, `s_pt`,
`v_pt`). -/
structure SteamTable where
  tsat_p : ℚ → ℚ
  uL_p : ℚ → ℚ
  uV_p : ℚ → ℚ
  hL_p : ℚ → ℚ
  hV_p : ℚ → ℚ
  sL_p : ℚ → ℚ
  sV_p : ℚ → ℚ
  vL_p : ℚ → ℚ
  vV_p : ℚ → ℚ
  u_pt : ℚ → ℚ → ℚ
  h_pt : ℚ → ℚ → ℚ
  s_pt : ℚ → ℚ → ℚ
  v_pt : ℚ → ℚ → ℚ

/-- A concrete oracle used only to instantiate universally quantified
theorems at closed inputs (its saturation temperature is the constant
100). -/
def trivialTable : SteamTable where
  tsat_p := fun _ => 100
  uL_p := fun _ => 1
  uV_p := fun _ => 2
  hL_p := fun _ => 3
  hV_p := fun _ => 4
  sL_p := fun _ => 5
  sV_p := fun _ => 6
  vL_p := fun _ => 7
  vV_p := fun _ => 8
  u_pt := fun _ _ => 9
  h_pt := fun _ _ => 10
  s_pt := fun _ _ => 11
  v_pt := fun _ _ => 12

/-- A constant-function oracle constructor for closed instantiations:
both unit systems give `trivialTable`. -/
def trivialSteam : Bool → SteamTable := fun _ => trivialTable

/-- The mutable `thermoState` object: Python initializes every numeric
attribute to `None` (here `Option.none`) and `region` to the string
`"saturated"`.  The region is the free-form string the source uses
("two-phase" = the spec's SaturatedTwoPhase, "super-heated vapor" =
SuperHeatedVapor, "sub-cooled liquid" = SubCooledLiquid). -/
structure ThermoState where
  region : String
  p : Option ℚ
  t : Option ℚ
  v : Option ℚ
  u : Option ℚ
  h : Option ℚ
  s : Option ℚ
  x : Option ℚ
deriving DecidableEq, Repr

/-- `thermoState.__init__`. -/
def initState : ThermoState :=
  { region := "saturated", p := none, t := none, v := none,
    u := none, h := none, s := none, x := none }

/-- Structured form of the `ValueError`s raised by `setState` (the spec's
`InvalidInput`), carrying the offending value / property codes exactly as
the Python messages do. -/
inductive ThermoError
  | pressureNotPositive (pbar : ℚ)
  | pressureAboveLimit (pbar : ℚ)
  | temperatureBelowZero (tC : ℚ)
  | temperatureAboveLimit (tC : ℚ)
  | comboNotImplemented (prop1 prop2 : String)
deriving DecidableEq, Repr

/-- `checkPressure` inside `thermoState.setState`: raises for `pbar <= 0`
and for `pbar > 300.0`.  The bound is applied to the raw numeric value:
no unit-system scaling appears in the source (the same `300` is used
whether the value is in bar or in psi). -/
def checkPressure (pbar : ℚ) : Option ThermoError :=
  if pbar ≤ 0 then some (.pressureNotPositive pbar)
  else if pbar > 300 then some (.pressureAboveLimit pbar)
  else none

/-- `checkTemperature` inside `thermoState.setState`: raises for `tC < 0`
and for `tC > 600.0`, again on the raw numeric value. -/
def checkTemperature (tC : ℚ) : Option ThermoError :=
  if tC < 0 then some (.temperatureBelowZero tC)
  else if tC > 600 then some (.temperatureAboveLimit tC)
  else none

/-- `thermoState.computeProperties`.  In the two-phase branch the source
reads `self.p` and `self.x`; in the other branch `self.p` and `self.t`.
Every call site (`setState`) assigns those attributes before calling, so
the fall-through arms returning the state unchanged are unreachable from
`setState` (in Python a `None` there would raise a `TypeError` rather
than return). -/
def computeProperties (tbl : SteamTable) (st : ThermoState) : ThermoState :=
  if st.region = "two-phase" then
    match st.p, st.x with
    | some p, some x =>
      { st with
        u := some (tbl.uL_p p + x * (tbl.uV_p p - tbl.uL_p p))
        h := some (tbl.hL_p p + x * (tbl.hV_p p - tbl.hL_p p))
        s := some (tbl.sL_p p + x * (tbl.sV_p p - tbl.sL_p p))
        v := some (tbl.vL_p p + x * (tbl.vV_p p - tbl.vL_p p)) }
    | _, _ => st
  else
    match st.p, st.t with
    | some p, some t =>
      let st1 :=
        { st with
          u := some (tbl.u_pt p t)
          h := some (tbl.h_pt p t)
          s := some (tbl.s_pt p t)
          v := some (tbl.v_pt p t) }
      if st.region = "super-heated vapor" then { st1 with x := some 1 }
      else if st.region = "sub-cooled liquid" then { st1 with x := some 0 }
      else st1
    | _, _ => st

/-- The p–t block of `thermoState.setState` (after the operands have been
ordered): assign `self.p` and `self.t`, run the two bound checks, classify
the region against the oracle saturation temperature with the absolute
1e-4 epsilon, then call `computeProperties`.  The returned pair is the
state object after the call together with the raised error, if any;
assignments made before a raise persist, as they do on the Python
object. -/
def ptBranch (tbl : SteamTable) (pv tv : ℚ) (st : ThermoState) :
    ThermoState × Option ThermoError :=
  let st := { st with p := some pv, t := some tv }
  match checkPressure pv with
  | some e => (st, some e)
  | none =>
    match checkTemperature tv with
    | some e => (st, some e)
    | none =>
      let tsat := tbl.tsat_p pv
      let st :=
        if |tv - tsat| < 1 / 10000 then
          { st with region := "two-phase", x := some (1 / 2) }
        else if tv > tsat then { st with region := "super-heated vapor" }
        else { st with region := "sub-cooled liquid" }
      (computeProperties tbl st, none)

/-- The p–x block of `thermoState.setState`: assign `self.p` and `self.x`,
check the pressure, silently clamp the quality into [0,1] (two sequential
ifs in the source), set the region to two-phase and the temperature to the
oracle saturation temperature, check that temperature, then call
`computeProperties`. -/
def pxBranch (tbl : SteamTable) (pv xv : ℚ) (st : ThermoState) :
    ThermoState × Option ThermoError :=
  let st := { st with p := some pv, x := some xv }
  match checkPressure pv with
  | some e => (st, some e)
  | none =>
    let xv := if xv < 0 then 0 else xv
    let xv := if xv > 1 then 1 else xv
    let tsatv := tbl.tsat_p pv
    let st := { st with x := some xv, region := "two-phase", t := some tsatv }
    match checkTemperature tsatv with
    | some e => (st, some e)
    | none => (computeProperties tbl st, none)

/-- `thermoState.setState`.  `steam` embeds the `XSteam(...)` constructor:
`steam si` is the oracle built for the chosen unit system (the source
rebuilds `self.steamTable` from the `SI` flag on entry).  The
`.lower().strip()` normalization in the source is the identity on the
short property codes every caller passes (they come from `shortProp`,
which lower-cases), so property codes are taken as given.  Template
dispatch and operand ordering follow the source conditionals
(`'p' in [prop1, prop2] and 't' in [prop1, prop2]`, etc.); any unmatched
combination raises the "not implemented yet" `ValueError`. -/
def setState (steam : Bool → SteamTable) (prop1 prop2 : String)
    (val1 val2 : ℚ) (si : Bool) (st : ThermoState) :
    ThermoState × Option ThermoError :=
  let tbl := steam si
  if (prop1 = "p" ∨ prop2 = "p") ∧ (prop1 = "t" ∨ prop2 = "t") then
    ptBranch tbl (if prop1 = "p" then val1 else val2)
      (if prop1 = "p" then val2 else val1) st
  else if (prop1 = "p" ∨ prop2 = "p") ∧ (prop1 = "x" ∨ prop2 = "x") then
    pxBranch tbl (if prop1 = "p" then val1 else val2)
      (if prop1 = "p" then val2 else val1) st
  else
    (st, some (.comboNotImplemented prop1 prop2))

/-- Failure of the per-state pipeline in `main_window.calculateProperties`:
either the duplicate-property guard fired (warning set, `setState` never
called) or `setState` raised a `ValueError`. -/
inductive ResolveError
  | duplicateProperty
  | stateError (e : ThermoError)
deriving DecidableEq, Repr

/-- The per-state resolution pipeline of `main_window.calculateProperties`:
reject identical short property codes before anything else, otherwise call
`setState` on a fresh `thermoState` object. -/
def resolvePair (steam : Bool → SteamTable) (sp1 sp2 : String)
    (v1 v2 : ℚ) (si : Bool) : Except ResolveError ThermoState :=
  if sp1 = sp2 then .error .duplicateProperty
  else
    match setState steam sp1 sp2 v1 v2 si initState with
    | (st, none) => .ok st
    | (_, some e) => .error (.stateError e)

namespace UC

/-- Modelled from the spec: the `UnitConversion` module (class `UC`) the
source imports is not among the repository sources; per the spec each
property kind carries a fixed linear (pressure, energy, entropy, volume)
or affine (temperature) conversion law between SI and English units, and
the law is exactly invertible.  Standard factor, 1 bar = 14.5038 psi. -/
def bar_to_psi : ℚ := 145038 / 10000

/-- Modelled from the spec: inverse of `bar_to_psi`. -/
def psi_to_bar : ℚ := 1 / bar_to_psi

/-- Modelled from the spec: energy-per-mass factor shared by `h` and `u`,
1 kJ/kg = 0.429923 btu/lb. -/
def kJperkg_to_btuperlb : ℚ := 429923 / 1000000

/-- Modelled from the spec: inverse of `kJperkg_to_btuperlb`. -/
def btuperlb_to_kJperkg : ℚ := 1 / kJperkg_to_btuperlb

/-- Modelled from the spec: entropy factor, 1 kJ/(kg·C) = 0.238846
btu/(lb·F). -/
def kJperkgC_to_btuperlbF : ℚ := 238846 / 1000000

/-- Modelled from the spec: inverse of `kJperkgC_to_btuperlbF`. -/
def btuperlbF_to_kJperkgC : ℚ := 1 / kJperkgC_to_btuperlbF

/-- Modelled from the spec: specific-volume factor, 1 m³/kg = 16.0185
ft³/lb. -/
def m3perkg_to_ft3perlb : ℚ := 160185 / 10000

/-- Modelled from the spec: inverse of `m3perkg_to_ft3perlb`. -/
def ft3perlb_to_m3perkg : ℚ := 1 / m3perkg_to_ft3perlb

/-- Modelled from the spec: the affine Celsius-to-Fahrenheit law. -/
def C_to_F (c : ℚ) : ℚ := c * 9 / 5 + 32

/-- Modelled from the spec: the affine Fahrenheit-to-Celsius law. -/
def F_to_C (f : ℚ) : ℚ := (f - 32) * 5 / 9

end UC

/-- `convertValue` inside `main_window.setUnits`: dispatch on the short
property-type code; identity when the unit system did not change; identity
for quality (`'x'`) and for any unrecognized code (the final
`return val`). -/
def convertValue (val : ℚ) (propType : String) (oldIsSI newIsSI : Bool) : ℚ :=
  if oldIsSI = newIsSI then val
  else if propType = "p" then
    if oldIsSI then val * UC.bar_to_psi else val * UC.psi_to_bar
  else if propType = "t" then
    if oldIsSI then UC.C_to_F val else UC.F_to_C val
  else if propType = "h" ∨ propType = "u" then
    if oldIsSI then val * UC.kJperkg_to_btuperlb else val * UC.btuperlb_to_kJperkg
  else if propType = "s" then
    if oldIsSI then val * UC.kJperkgC_to_btuperlbF else val * UC.btuperlbF_to_kJperkgC
  else if propType = "v" then
    if oldIsSI then val * UC.m3perkg_to_ft3perlb else val * UC.ft3perlb_to_m3perkg
  else if propType = "x" then val
  else val

/-- The seven signed per-property differences computed by
`main_window.makeDeltaLabel` (`dp`, `dT`, `du`, `dh`, `ds`, `dv`, `dx`).
The record carries no region field, matching the source, whose delta label
prints no region line. -/
structure DeltaReport where
  dp : ℚ
  dT : ℚ
  du : ℚ
  dh : ℚ
  ds : ℚ
  dv : ℚ
  dx : ℚ
deriving DecidableEq, Repr

/-- The numeric part of `main_window.makeDeltaLabel`: field-by-field
`s2.field − s1.field`.  The Python code reads the attributes directly (a
`None` attribute would raise a `TypeError`), so the embedding yields
`none` unless both states are fully populated; no unit conversion is
applied to either state. -/
def makeDelta (s1 s2 : ThermoState) : Option DeltaReport :=
  match s1.p, s1.t, s1.u, s1.h, s1.s, s1.v, s1.x,
        s2.p, s2.t, s2.u, s2.h, s2.s, s2.v, s2.x with
  | some p1, some t1, some u1, some h1, some e1, some v1, some x1,
    some p2, some t2, some u2, some h2, some e2, some v2, some x2 =>
      some { dp := p2 - p1, dT := t2 - t1, du := u2 - u1, dh := h2 - h1,
             ds := e2 - e1, dv := v2 - v1, dx := x2 - x1 }
  | _, _, _, _, _, _, _, _, _, _, _, _, _, _ => none

/-- The spec's phrasing of the pressure bound, for comparison with the
source's `checkPressure`: "pressure ∈ (0, 300] bar-equivalent
(unit-system-scaled)", i.e. in the English system the accepted numeric
range is (0, 300 · bar_to_psi] psi.  This definition follows the spec's
words, not the source. -/
def specScaledPressureOK (si : Bool) (p : ℚ) : Prop :=
  0 < p ∧ p ≤ (if si then 300 else 300 * UC.bar_to_psi)

instance (si : Bool) (p : ℚ) : Decidable (specScaledPressureOK si p) := by
  unfold specScaledPressureOK; infer_instance

/-! Helper lemmas shared by the claim theorems. -/

lemma setState_pt (steam : Bool → SteamTable) (v1 v2 : ℚ) (si : Bool)
    (st : ThermoState) :
    setState steam "p" "t" v1 v2 si st = ptBranch (steam si) v1 v2 st := by
  simp [setState]

lemma setState_px (steam : Bool → SteamTable) (v1 v2 : ℚ) (si : Bool)
    (st : ThermoState) :
    setState steam "p" "x" v1 v2 si st = pxBranch (steam si) v1 v2 st := by
  simp [setState]

lemma bar_prod : UC.bar_to_psi * UC.psi_to_bar = 1 := by
  norm_num [UC.bar_to_psi, UC.psi_to_bar]

lemma energy_prod : UC.kJperkg_to_btuperlb * UC.btuperlb_to_kJperkg = 1 := by
  norm_num [UC.kJperkg_to_btuperlb, UC.btuperlb_to_kJperkg]

lemma entropy_prod : UC.kJperkgC_to_btuperlbF * UC.btuperlbF_to_kJperkgC = 1 := by
  norm_num [UC.kJperkgC_to_btuperlbF, UC.btuperlbF_to_kJperkgC]

lemma volume_prod : UC.m3perkg_to_ft3perlb * UC.ft3perlb_to_m3perkg = 1 := by
  norm_num [UC.m3perkg_to_ft3perlb, UC.ft3perlb_to_m3perkg]

lemma roundtrip_mul {c d v : ℚ} (h : c * d = 1) : v * c * d = v := by
  rw [mul_assoc, h, mul_one]

/-- C1: for every (Pressure, Temperature) input that passes the bounds
checks, `setState` classifies the region from the oracle saturation
temperature: if the absolute difference to `tsat_p` is below 1e-4 the
region is two-phase with quality fixed at 1/2; if T is above `tsat_p` the
region is super-heated vapor with quality exactly 1; otherwise the region
is sub-cooled liquid with quality exactly 0 — and the call raises no
error. -/
theorem pt_region_from_tsat (steam : Bool → SteamTable) (p T : ℚ) (si : Bool)
    (hp : checkPressure p = none) (ht : checkTemperature T = none) :
    (setState steam "p" "t" p T si initState).2 = none ∧
    (|T - (steam si).tsat_p p| < 1 / 10000 →
      (setState steam "p" "t" p T si initState).1.region = "two-phase" ∧
      (setState steam "p" "t" p T si initState).1.x = some (1 / 2)) ∧
    (¬ |T - (steam si).tsat_p p| < 1 / 10000 → T > (steam si).tsat_p p →
      (setState steam "p" "t" p T si initState).1.region = "super-heated vapor" ∧
      (setState steam "p" "t" p T si initState).1.x = some 1) ∧
    (¬ |T - (steam si).tsat_p p| < 1 / 10000 → ¬ T > (steam si).tsat_p p →
      (setState steam "p" "t" p T si initState).1.region = "sub-cooled liquid" ∧
      (setState steam "p" "t" p T si initState).1.x = some 0) := by
  rw [setState_pt]
  simp only [ptBranch, hp, ht]
  by_cases h1 : |T - (steam si).tsat_p p| < 1 / 10000
  · rw [if_pos h1]
    refine ⟨by trivial, fun _ => ?_, fun hc _ => absurd h1 hc, fun hc _ => absurd h1 hc⟩
    constructor <;> simp [computeProperties]
  · rw [if_neg h1]
    by_cases h2 : T > (steam si).tsat_p p
    · rw [if_pos h2]
      refine ⟨by trivial, fun hc => absurd hc h1, fun _ _ => ?_, fun _ hc => absurd h2 hc⟩
      constructor <;> simp [computeProperties]
    · rw [if_neg h2]
      refine ⟨by trivial, fun hc => absurd hc h1, fun _ hc => absurd hc h2, fun _ _ => ?_⟩
      constructor <;> simp [computeProperties]

/-- Witness for C1: at p = 10, T = 50 under the trivial oracle
(tsat = 100), the resolved region is sub-cooled liquid with quality 0. -/
theorem pt_region_from_tsat_witness :
    (setState trivialSteam "p" "t" 10 50 true initState).1.region = "sub-cooled liquid" ∧
    (setState trivialSteam "p" "t" 10 50 true initState).1.x = some 0 :=
  (pt_region_from_tsat trivialSteam 10 50 true
      (by norm_num [checkPressure]) (by norm_num [checkTemperature])).2.2.2
    (by norm_num [trivialSteam, trivialTable, abs_sub_lt_iff])
    (by norm_num [trivialSteam, trivialTable])

/-- C2: for every (Pressure, Quality) input with valid pressure, and any
quality value whatever (including values outside [0,1]), `setState` never
rejects the quality: it silently clamps it into [0,1], always sets the
region to two-phase, sets the temperature to the oracle saturation
temperature at that pressure, and the only possible error of the call is
the [0,600] bound check applied to that saturation temperature. -/
theorem px_quality_clamped_two_phase (steam : Bool → SteamTable) (p x : ℚ)
    (si : Bool) (hp : checkPressure p = none) :
    (setState steam "p" "x" p x si initState).1.region = "two-phase" ∧
    (setState steam "p" "x" p x si initState).1.t = some ((steam si).tsat_p p) ∧
    (setState steam "p" "x" p x si initState).2
      = checkTemperature ((steam si).tsat_p p) ∧
    (setState steam "p" "x" p x si initState).1.x
      = some (if x < 0 then 0 else if x > 1 then 1 else x) ∧
    0 ≤ (if x < 0 then (0:ℚ) else if x > 1 then 1 else x) ∧
    (if x < 0 then (0:ℚ) else if x > 1 then 1 else x) ≤ 1 := by
  have hclamp : (if (if x < 0 then (0:ℚ) else x) > 1 then (1:ℚ)
      else if x < 0 then (0:ℚ) else x)
      = if x < 0 then (0:ℚ) else if x > 1 then 1 else x := by
    split_ifs <;> first | rfl | linarith
  rw [setState_px]
  simp only [pxBranch, hp]
  rw [hclamp]
  cases hct : checkTemperature ((steam si).tsat_p p) with
  | some e =>
      refine ⟨by trivial, by trivial, by trivial, by trivial, ?_, ?_⟩ <;>
        split_ifs <;> linarith
  | none =>
      refine ⟨?_, ?_, by trivial, ?_, ?_, ?_⟩
      · simp [computeProperties]
      · simp [computeProperties]
      · simp [computeProperties]
      · split_ifs <;> linarith
      · split_ifs <;> linarith

/-- Witness for C2: at p = 10, x = 3/2 (outside [0,1]) under the trivial
oracle, the call clamps the quality, stays two-phase, and takes the
saturation temperature. -/
theorem px_quality_clamped_two_phase_witness :
    (setState trivialSteam "p" "x" 10 (3/2) true initState).1.region = "two-phase" ∧
    (setState trivialSteam "p" "x" 10 (3/2) true initState).1.t
      = some ((trivialSteam true).tsat_p 10) ∧
    (setState trivialSteam "p" "x" 10 (3/2) true initState).2
      = checkTemperature ((trivialSteam true).tsat_p 10) ∧
    (setState trivialSteam "p" "x" 10 (3/2) true initState).1.x
      = some (if (3:ℚ)/2 < 0 then 0 else if (3:ℚ)/2 > 1 then 1 else (3:ℚ)/2) ∧
    0 ≤ (if (3:ℚ)/2 < 0 then (0:ℚ) else if (3:ℚ)/2 > 1 then 1 else (3:ℚ)/2) ∧
    (if (3:ℚ)/2 < 0 then (0:ℚ) else if (3:ℚ)/2 > 1 then 1 else (3:ℚ)/2) ≤ 1 :=
  px_quality_clamped_two_phase trivialSteam 10 (3/2) true (by norm_num [checkPressure])

/-- C3 counterexample: the claim says the pressure bound is "(0, 300]
bar-equivalent, scaled to the caller's unit system".  In the English
system 400 psi is inside the 300-bar-equivalent range (400 ≤ 300 ·
bar_to_psi), yet the source's `checkPressure` rejects 400: the source
compares the raw number against 300 with no unit scaling, so the claimed
scaled bound is false for the English unit system. -/
theorem pressure_bound_not_scaled_cex :
    specScaledPressureOK false 400 ∧ checkPressure 400 ≠ none := by
  constructor
  · constructor <;> norm_num [UC.bar_to_psi]
  · intro hc
    norm_num [checkPressure] at hc
    exact Option.noConfusion hc

/-- C3 amended: `checkPressure` accepts exactly the raw numeric interval
(0, 300], with no unit-system scaling — the same numeric bound whether
the value is in bar (SI) or in psi (English): 300 is accepted, values at
or below 0 and values above 300 are rejected.  (The check takes no
unit-system argument at all, so the acceptance set is identical in both
unit systems.) -/
theorem pressure_bound_raw_interval (p : ℚ) :
    checkPressure p = none ↔ 0 < p ∧ p ≤ 300 := by
  unfold checkPressure
  split_ifs with h1 h2
  · simp; intro hp; linarith
  · simp; intro hp; linarith
  · simp; exact ⟨by linarith, by linarith⟩

/-- Witness for amended C3: the boundary value 300 is accepted. -/
theorem pressure_bound_raw_interval_witness : checkPressure 300 = none :=
  (pressure_bound_raw_interval 300).mpr (by norm_num)

/-- C4 counterexample: a failed resolution call does not leave the state
object's fields unchanged.  With an invalid pressure of −1 the p–t call
raises, yet the state object's `p` attribute has been overwritten (it was
`none` on the fresh object and is `some (−1)` after the failed call),
because the source assigns `self.p`/`self.t` before running the bound
checks. -/
theorem failed_call_mutates_state_cex :
    (setState trivialSteam "p" "t" (-1) 50 true initState).2 ≠ none ∧
    (setState trivialSteam "p" "t" (-1) 50 true initState).1.p ≠ initState.p := by
  rw [setState_pt]
  constructor <;> intro hc
  · norm_num [ptBranch, checkPressure, initState, trivialSteam, trivialTable] at hc
    exact Option.noConfusion hc
  · norm_num [ptBranch, checkPressure, initState, trivialSteam, trivialTable] at hc
    exact Option.noConfusion hc

/-- C4 amended: on a failed `setState` call the four derived oracle
fields u, h, s, v are untouched (only the directly assigned inputs p, t,
x may have been overwritten before the raise), and on a successful call
all seven fields are populated together; since the pipeline builds a
fresh state object per call, a subsequent call with different inputs
proceeds normally. -/
theorem setState_mutation_contract (steam : Bool → SteamTable)
    (prop1 prop2 : String) (v1 v2 : ℚ) (si : Bool) (st st2 : ThermoState)
    (err : Option ThermoError)
    (h : setState steam prop1 prop2 v1 v2 si st = (st2, err)) :
    (err ≠ none → st2.u = st.u ∧ st2.h = st.h ∧ st2.s = st.s ∧ st2.v = st.v) ∧
    (err = none → st2.p.isSome ∧ st2.t.isSome ∧ st2.u.isSome ∧ st2.h.isSome ∧
      st2.s.isSome ∧ st2.v.isSome ∧ st2.x.isSome) := by
  unfold setState at h
  by_cases c1 : (prop1 = "p" ∨ prop2 = "p") ∧ (prop1 = "t" ∨ prop2 = "t")
  · rw [if_pos c1] at h
    generalize hpv : (if prop1 = "p" then v1 else v2) = pv at h
    generalize htv : (if prop1 = "p" then v2 else v1) = tv at h
    simp only [ptBranch] at h
    cases hcp : checkPressure pv with
    | some e =>
      simp only [hcp] at h
      injection h with h1 h2
      subst h1; subst h2
      exact ⟨fun _ => ⟨rfl, rfl, rfl, rfl⟩, fun hc => absurd hc (by simp)⟩
    | none =>
      simp only [hcp] at h
      cases hct : checkTemperature tv with
      | some e =>
        simp only [hct] at h
        injection h with h1 h2
        subst h1; subst h2
        exact ⟨fun _ => ⟨rfl, rfl, rfl, rfl⟩, fun hc => absurd hc (by simp)⟩
      | none =>
        simp only [hct] at h
        by_cases heps : |tv - (steam si).tsat_p pv| < 1 / 10000
        · rw [if_pos heps] at h
          injection h with h1 h2
          subst h1; subst h2
          refine ⟨fun hc => absurd rfl hc, fun _ => ?_⟩
          refine ⟨?_, ?_, ?_, ?_, ?_, ?_, ?_⟩ <;> simp [computeProperties]
        · rw [if_neg heps] at h
          by_cases hgt : tv > (steam si).tsat_p pv
          · rw [if_pos hgt] at h
            injection h with h1 h2
            subst h1; subst h2
            refine ⟨fun hc => absurd rfl hc, fun _ => ?_⟩
            refine ⟨?_, ?_, ?_, ?_, ?_, ?_, ?_⟩ <;> simp [computeProperties]
          · rw [if_neg hgt] at h
            injection h with h1 h2
            subst h1; subst h2
            refine ⟨fun hc => absurd rfl hc, fun _ => ?_⟩
            refine ⟨?_, ?_, ?_, ?_, ?_, ?_, ?_⟩ <;> simp [computeProperties]
  · rw [if_neg c1] at h
    by_cases c2 : (prop1 = "p" ∨ prop2 = "p") ∧ (prop1 = "x" ∨ prop2 = "x")
    · rw [if_pos c2] at h
      generalize hpv : (if prop1 = "p" then v1 else v2) = pv at h
      generalize hxv : (if prop1 = "p" then v2 else v1) = xv at h
      simp only [pxBranch] at h
      cases hcp : checkPressure pv with
      | some e =>
        simp only [hcp] at h
        injection h with h1 h2
        subst h1; subst h2
        exact ⟨fun _ => ⟨rfl, rfl, rfl, rfl⟩, fun hc => absurd hc (by simp)⟩
      | none =>
        simp only [hcp] at h
        cases hct : checkTemperature ((steam si).tsat_p pv) with
        | some e =>
          simp only [hct] at h
          injection h with h1 h2
          subst h1; subst h2
          exact ⟨fun _ => ⟨rfl, rfl, rfl, rfl⟩, fun hc => absurd hc (by simp)⟩
        | none =>
          simp only [hct] at h
          injection h with h1 h2
          subst h1; subst h2
          refine ⟨fun hc => absurd rfl hc, fun _ => ?_⟩
          refine ⟨?_, ?_, ?_, ?_, ?_, ?_, ?_⟩ <;> simp [computeProperties]
    · rw [if_neg c2] at h
      injection h with h1 h2
      subst h1; subst h2
      exact ⟨fun _ => ⟨rfl, rfl, rfl, rfl⟩, fun hc => absurd hc (by simp)⟩

/-- Witness for amended C4: at the failing input p = −1 the call errors
and the derived fields are untouched; the success clause holds
vacuously. -/
theorem setState_mutation_contract_witness :
    ((setState trivialSteam "p" "t" (-1) 50 true initState).2 ≠ none →
      (setState trivialSteam "p" "t" (-1) 50 true initState).1.u = initState.u ∧
      (setState trivialSteam "p" "t" (-1) 50 true initState).1.h = initState.h ∧
      (setState trivialSteam "p" "t" (-1) 50 true initState).1.s = initState.s ∧
      (setState trivialSteam "p" "t" (-1) 50 true initState).1.v = initState.v) ∧
    ((setState trivialSteam "p" "t" (-1) 50 true initState).2 = none →
      (setState trivialSteam "p" "t" (-1) 50 true initState).1.p.isSome ∧
      (setState trivialSteam "p" "t" (-1) 50 true initState).1.t.isSome ∧
      (setState trivialSteam "p" "t" (-1) 50 true initState).1.u.isSome ∧
      (setState trivialSteam "p" "t" (-1) 50 true initState).1.h.isSome ∧
      (setState trivialSteam "p" "t" (-1) 50 true initState).1.s.isSome ∧
      (setState trivialSteam "p" "t" (-1) 50 true initState).1.v.isSome ∧
      (setState trivialSteam "p" "t" (-1) 50 true initState).1.x.isSome) :=
  setState_mutation_contract trivialSteam "p" "t" (-1) 50 true initState
    (setState trivialSteam "p" "t" (-1) 50 true initState).1
    (setState trivialSteam "p" "t" (-1) 50 true initState).2 rfl

/-- C5: when the two supplied property codes are identical the per-state
pipeline rejects the input with the duplicate-property error before any
template matching: the result is the duplicate error for every oracle,
every pair of values and both unit systems, in particular for
(Pressure, 1) with (Pressure, 2). -/
theorem duplicate_property_rejected (steam : Bool → SteamTable) (sp : String)
    (v1 v2 : ℚ) (si : Bool) :
    resolvePair steam sp sp v1 v2 si = .error .duplicateProperty := by
  simp [resolvePair]

/-- Witness for C5: `resolvePair` on (p, 1) and (p, 2) fails with the
duplicate-property error. -/
theorem duplicate_property_rejected_witness :
    resolvePair trivialSteam "p" "p" 1 2 true = .error .duplicateProperty :=
  duplicate_property_rejected trivialSteam "p" 1 2 true

/-- C6: for every pair of distinct property codes other than the
(unordered) pairs p–t and p–x, resolution fails with the
combination-not-implemented error rather than silently falling back to
some other computation — for every oracle, all values and both unit
systems. -/
theorem unsupported_combo_rejected (steam : Bool → SteamTable)
    (sp1 sp2 : String) (v1 v2 : ℚ) (si : Bool)
    (h1 : sp1 ∈ (["p", "t", "x", "h", "u", "s", "v"] : List String))
    (h2 : sp2 ∈ (["p", "t", "x", "h", "u", "s", "v"] : List String))
    (hne : sp1 ≠ sp2)
    (hpt : ¬(sp1 = "p" ∧ sp2 = "t")) (htp : ¬(sp1 = "t" ∧ sp2 = "p"))
    (hpx : ¬(sp1 = "p" ∧ sp2 = "x")) (hxp : ¬(sp1 = "x" ∧ sp2 = "p")) :
    resolvePair steam sp1 sp2 v1 v2 si
      = .error (.stateError (.comboNotImplemented sp1 sp2)) := by
  have hcond1 : ¬((sp1 = "p" ∨ sp2 = "p") ∧ (sp1 = "t" ∨ sp2 = "t")) := by
    rintro ⟨hp | hp, ht | ht⟩
    · rw [hp] at ht; exact absurd ht (by decide)
    · exact hpt ⟨hp, ht⟩
    · exact htp ⟨ht, hp⟩
    · rw [hp] at ht; exact absurd ht (by decide)
  have hcond2 : ¬((sp1 = "p" ∨ sp2 = "p") ∧ (sp1 = "x" ∨ sp2 = "x")) := by
    rintro ⟨hp | hp, hx | hx⟩
    · rw [hp] at hx; exact absurd hx (by decide)
    · exact hpx ⟨hp, hx⟩
    · exact hxp ⟨hx, hp⟩
    · rw [hp] at hx; exact absurd hx (by decide)
  simp only [resolvePair, setState, if_neg hne, if_neg hcond1, if_neg hcond2]

/-- Witness for C6: resolving from (Temperature, 100) and
(SpecificEnthalpy, 2800) fails with the combination-not-implemented
error. -/
theorem unsupported_combo_rejected_witness :
    resolvePair trivialSteam "t" "h" 100 2800 true
      = .error (.stateError (.comboNotImplemented "t" "h")) :=
  unsupported_combo_rejected trivialSteam "t" "h" 100 2800 true
    (by decide) (by decide) (by decide) (by decide) (by decide) (by decide)
    (by decide)

/-- C7: whenever a successful `setState` call resolves the region to
two-phase, each of the four derived properties u, h, s, v equals the
oracle's saturated-liquid value at the given pressure plus quality times
the difference between the saturated-vapor and saturated-liquid values at
that pressure. -/
theorem two_phase_interpolation (steam : Bool → SteamTable)
    (prop1 prop2 : String) (v1 v2 : ℚ) (si : Bool) (st st2 : ThermoState)
    (h : setState steam prop1 prop2 v1 v2 si st = (st2, none))
    (hr : st2.region = "two-phase") :
    ∃ pv xv, st2.p = some pv ∧ st2.x = some xv ∧
      st2.u = some ((steam si).uL_p pv + xv * ((steam si).uV_p pv - (steam si).uL_p pv)) ∧
      st2.h = some ((steam si).hL_p pv + xv * ((steam si).hV_p pv - (steam si).hL_p pv)) ∧
      st2.s = some ((steam si).sL_p pv + xv * ((steam si).sV_p pv - (steam si).sL_p pv)) ∧
      st2.v = some ((steam si).vL_p pv + xv * ((steam si).vV_p pv - (steam si).vL_p pv)) := by
  unfold setState at h
  by_cases c1 : (prop1 = "p" ∨ prop2 = "p") ∧ (prop1 = "t" ∨ prop2 = "t")
  · rw [if_pos c1] at h
    generalize hpv : (if prop1 = "p" then v1 else v2) = pv at h
    generalize htv : (if prop1 = "p" then v2 else v1) = tv at h
    simp only [ptBranch] at h
    cases hcp : checkPressure pv with
    | some e => simp only [hcp] at h; simp at h
    | none =>
      simp only [hcp] at h
      cases hct : checkTemperature tv with
      | some e => simp only [hct] at h; simp at h
      | none =>
        simp only [hct] at h
        by_cases heps : |tv - (steam si).tsat_p pv| < 1 / 10000
        · rw [if_pos heps] at h
          injection h with h1 h2
          subst h1
          refine ⟨pv, 1/2, ?_, ?_, ?_, ?_, ?_, ?_⟩ <;> simp [computeProperties]
        · rw [if_neg heps] at h
          by_cases hgt : tv > (steam si).tsat_p pv
          · rw [if_pos hgt] at h
            injection h with h1 h2
            subst h1
            simp [computeProperties] at hr
          · rw [if_neg hgt] at h
            injection h with h1 h2
            subst h1
            simp [computeProperties] at hr
  · rw [if_neg c1] at h
    by_cases c2 : (prop1 = "p" ∨ prop2 = "p") ∧ (prop1 = "x" ∨ prop2 = "x")
    · rw [if_pos c2] at h
      generalize hpv : (if prop1 = "p" then v1 else v2) = pv at h
      generalize hxv : (if prop1 = "p" then v2 else v1) = xv at h
      simp only [pxBranch] at h
      cases hcp : checkPressure pv with
      | some e => simp only [hcp] at h; simp at h
      | none =>
        simp only [hcp] at h
        cases hct : checkTemperature ((steam si).tsat_p pv) with
        | some e => simp only [hct] at h; simp at h
        | none =>
          simp only [hct] at h
          injection h with h1 h2
          subst h1
          refine ⟨pv, if (if xv < 0 then 0 else xv) > 1 then 1 else if xv < 0 then 0 else xv,
            ?_, ?_, ?_, ?_, ?_, ?_⟩ <;> simp [computeProperties]
    · rw [if_neg c2] at h
      injection h with h1 h2
      simp at h2

/-- Witness for C7: resolving from (p = 10, x = 1/2) under the trivial
oracle gives a two-phase state whose u, h, s, v are the quality-weighted
interpolations of the saturated-liquid and saturated-vapor values. -/
theorem two_phase_interpolation_witness :
    ∃ pv xv,
      (setState trivialSteam "p" "x" 10 (1/2) true initState).1.p = some pv ∧
      (setState trivialSteam "p" "x" 10 (1/2) true initState).1.x = some xv ∧
      (setState trivialSteam "p" "x" 10 (1/2) true initState).1.u
        = some ((trivialSteam true).uL_p pv
            + xv * ((trivialSteam true).uV_p pv - (trivialSteam true).uL_p pv)) ∧
      (setState trivialSteam "p" "x" 10 (1/2) true initState).1.h
        = some ((trivialSteam true).hL_p pv
            + xv * ((trivialSteam true).hV_p pv - (trivialSteam true).hL_p pv)) ∧
      (setState trivialSteam "p" "x" 10 (1/2) true initState).1.s
        = some ((trivialSteam true).sL_p pv
            + xv * ((trivialSteam true).sV_p pv - (trivialSteam true).sL_p pv)) ∧
      (setState trivialSteam "p" "x" 10 (1/2) true initState).1.v
        = some ((trivialSteam true).vL_p pv
            + xv * ((trivialSteam true).vV_p pv - (trivialSteam true).vL_p pv)) := by
  have h2 : (setState trivialSteam "p" "x" 10 (1/2) true initState).2 = none := by
    rw [setState_px]
    simp only [pxBranch]
    norm_num [checkPressure, checkTemperature, trivialSteam, trivialTable]
  have hr : (setState trivialSteam "p" "x" 10 (1/2) true initState).1.region
      = "two-phase" := by
    rw [setState_px]
    simp only [pxBranch]
    norm_num [checkPressure, checkTemperature, trivialSteam, trivialTable,
      computeProperties]
  exact two_phase_interpolation trivialSteam "p" "x" 10 (1/2) true initState
    (setState trivialSteam "p" "x" 10 (1/2) true initState).1 (by rw [← h2]) hr

/-- C8: the unit conversion function is a pure total function that is the
identity whenever the source and target unit systems coincide, is the
identity for quality under every unit pair, and is exactly invertible:
converting a value across and back returns the value, for every supported
property kind and every rational value. -/
theorem convertValue_identity_and_roundtrip :
    (∀ (v : ℚ) (k : String) (u : Bool), convertValue v k u u = v) ∧
    (∀ (v : ℚ) (a b : Bool), convertValue v "x" a b = v) ∧
    (∀ (v : ℚ) (k : String) (a b : Bool),
      convertValue (convertValue v k a b) k b a = v) := by
  refine ⟨fun v k u => by simp [convertValue], fun v a b => ?_, fun v k a b => ?_⟩
  · rcases a <;> rcases b <;> simp [convertValue]
  · rcases a <;> rcases b <;> simp only [convertValue] <;> norm_num
    all_goals {
      by_cases hp : k = "p"
      · simp [hp, roundtrip_mul bar_prod,
          roundtrip_mul (mul_comm UC.bar_to_psi UC.psi_to_bar ▸ bar_prod)]
      by_cases ht : k = "t"
      · simp [hp, ht, UC.C_to_F, UC.F_to_C]
      by_cases hh : k = "h"
      · simp [hp, ht, hh, roundtrip_mul energy_prod,
          roundtrip_mul (mul_comm UC.kJperkg_to_btuperlb UC.btuperlb_to_kJperkg ▸ energy_prod)]
      by_cases hu : k = "u"
      · simp [hp, ht, hh, hu, roundtrip_mul energy_prod,
          roundtrip_mul (mul_comm UC.kJperkg_to_btuperlb UC.btuperlb_to_kJperkg ▸ energy_prod)]
      by_cases hs : k = "s"
      · simp [hp, ht, hh, hu, hs, roundtrip_mul entropy_prod,
          roundtrip_mul (mul_comm UC.kJperkgC_to_btuperlbF UC.btuperlbF_to_kJperkgC ▸ entropy_prod)]
      by_cases hv : k = "v"
      · simp [hp, ht, hh, hu, hs, hv, roundtrip_mul volume_prod,
          roundtrip_mul (mul_comm UC.m3perkg_to_ft3perlb UC.ft3perlb_to_m3perkg ▸ volume_prod)]
      by_cases hx : k = "x"
      · simp [hp, ht, hh, hu, hs, hv, hx]
      · simp [hp, ht, hh, hu, hs, hv, hx]
    }

/-- C9: for two fully resolved states the delta report consists of exactly
the seven signed per-property differences, each computed as state-2 value
minus state-1 value, with no unit conversion applied and no region field
in the report record. -/
theorem makeDelta_fieldwise_diff (s1 s2 : ThermoState)
    (p1 t1 u1 h1 e1 v1 x1 p2 t2 u2 h2 e2 v2 x2 : ℚ)
    (hp1 : s1.p = some p1) (ht1 : s1.t = some t1) (hu1 : s1.u = some u1)
    (hh1 : s1.h = some h1) (he1 : s1.s = some e1) (hv1 : s1.v = some v1)
    (hx1 : s1.x = some x1)
    (hp2 : s2.p = some p2) (ht2 : s2.t = some t2) (hu2 : s2.u = some u2)
    (hh2 : s2.h = some h2) (he2 : s2.s = some e2) (hv2 : s2.v = some v2)
    (hx2 : s2.x = some x2) :
    makeDelta s1 s2 = some { dp := p2 - p1, dT := t2 - t1, du := u2 - u1,
                             dh := h2 - h1, ds := e2 - e1, dv := v2 - v1,
                             dx := x2 - x1 } := by
  simp [makeDelta, hp1, ht1, hu1, hh1, he1, hv1, hx1,
        hp2, ht2, hu2, hh2, he2, hv2, hx2]

/-- Witness for C9: the delta of two concrete fully populated states is
the field-by-field, state-2-minus-state-1 subtraction. -/
theorem makeDelta_fieldwise_diff_witness :
    makeDelta
      { region := "sub-cooled liquid", p := some 1, t := some 2, v := some 3,
        u := some 4, h := some 5, s := some 6, x := some 0 }
      { region := "super-heated vapor", p := some 10, t := some 20, v := some 30,
        u := some 40, h := some 50, s := some 60, x := some 1 }
      = some { dp := 10 - 1, dT := 20 - 2, du := 40 - 4, dh := 50 - 5,
               ds := 60 - 6, dv := 30 - 3, dx := 1 - 0 } :=
  makeDelta_fieldwise_diff _ _ 1 2 4 5 6 3 0 10 20 40 50 60 30 1
    rfl rfl rfl rfl rfl rfl rfl rfl rfl rfl rfl rfl rfl rfl

/-- C10: for any property-type code not among the seven recognized codes
the conversion function raises no error and returns the input value
unchanged, even when the source and target unit systems differ. -/
theorem convertValue_unknown_code_identity (k : String)
    (hk : k ∉ (["p", "t", "h", "u", "s", "v", "x"] : List String)) :
    ∀ (v : ℚ) (a b : Bool), convertValue v k a b = v := by
  intro v a b
  simp only [List.mem_cons, List.mem_singleton, not_or] at hk
  obtain ⟨hp, ht, hh, hu, hs, hv, hx⟩ := hk
  by_cases hab : a = b
  · simp [convertValue, hab]
  · simp [convertValue, hab, hp, ht, hh, hu, hs, hv, hx]

/-- Witness for C10: the unrecognized code "z" converts to the unchanged
input even across unit systems. -/
theorem convertValue_unknown_code_identity_witness :
    convertValue 5 "z" true false = 5 :=
  convertValue_unknown_code_identity "z" (by decide) 5 true false

end ThermoCalc
